import Mathlib

/-!
Verification development for the Go JWT authentication demo
(`go-consumer-api-with-jwt`): a shallow embedding of the auth core —
token issuance and verification (`internal/service/user.go`), the
refresh-token store and rotation (`internal/handler/auth.go`, service
part), the JWT-validation middleware and the role-based access
controller (`pkg/middleware/authorization`) — together with theorems
about the behaviour of those definitions.

Modelling conventions:
* Unix timestamps (Go `time.Time`, `int64` unix seconds) are `Int`.
  The zero value of `time.Time` is modelled as `0` (used only by
  `VerifyExpirationDate`, which treats it as "not set").
* `strconv.Atoi` applied to an environment string is modelled by an
  `Option Int` configuration field (`none` = the parse error branch).
* bcrypt is abstracted by an injective tagging function; the stored
  password column holds `bcryptHashOf` of the plaintext.
* `uuid.New().String()` is modelled by passing the freshly drawn
  random string as an explicit argument to each operation; the
  uniqueness of independent draws becomes an explicit hypothesis.
* JWT signatures are symbolic: a signature records the algorithm, the
  signing key and the signed payload, and verification recomputes and
  compares, exactly as HMAC/RSA verification behaves observationally.
-/

namespace JwtAuthDemo

/-! ## JWT algorithms, claims, keys, tokens -/

/-- The JWT signing algorithms relevant to this code base
(`github.com/golang-jwt/jwt/v5` method singletons). -/
inductive Alg
  | HS256 | HS384 | HS512 | RS256 | RS384 | RS512
deriving DecidableEq, Repr

/-- `token.Method.(*jwt.SigningMethodHMAC)` succeeds exactly on the HMAC family. -/
def Alg.isHMAC : Alg → Bool
  | .HS256 | .HS384 | .HS512 => true
  | _ => false

/-- `token.Method.(*jwt.SigningMethodRSA)` succeeds exactly on the RSA family. -/
def Alg.isRSA : Alg → Bool
  | .RS256 | .RS384 | .RS512 => true
  | _ => false

/-- A value stored in a `jwt.MapClaims` entry (`interface\x7b\x7d` after the
JSON round trip: strings, numbers, or arrays of strings for `roles`). -/
inductive ClaimValue
  | str (s : String)
  | num (n : Int)
  | strList (l : List String)
deriving DecidableEq, Repr

/-- `jwt.MapClaims`, as an association list. -/
abbrev Claims := List (String × ClaimValue)

/-- Map access `claims[key]` (`nil` when absent ↦ `none`). -/
def claimLookup (cs : Claims) (k : String) : Option ClaimValue :=
  (cs.find? (fun p => decide (p.1 = k))).map (·.2)

/-- Key material: the shared HMAC secret, or one half of an RSA key
pair identified by the id of the pair it belongs to. -/
inductive Key
  | secret (s : String)
  | rsaPriv (id : Nat)
  | rsaPub (id : Nat)
deriving DecidableEq, Repr

/-- A symbolic signature: the algorithm and key it was produced with
and the payload it covers. -/
structure Sig where
  alg : Alg
  key : Key
  payload : Claims
deriving DecidableEq, Repr

/-- A decoded JWT: header algorithm, claims, signature. -/
structure Token where
  alg : Alg
  claims : Claims
  sig : Sig
deriving DecidableEq, Repr

/-- `jwt.NewWithClaims(method, claims).SignedString(key)`: an honestly
signed token. (A handcrafted `Token` value with an unrelated `sig`
models a forged or foreign token string.) -/
def signToken (alg : Alg) (key : Key) (claims : Claims) : Token :=
  ⟨alg, claims, ⟨alg, key, claims⟩⟩

/-- Whether a signature produced with the first key checks out under
the second: HMAC needs the same secret, RSA needs the public half of
the signing pair. -/
def keyVerifies : Key → Key → Bool
  | .secret s, .secret t => decide (s = t)
  | .rsaPriv i, .rsaPub j => decide (i = j)
  | _, _ => false

/-- Signature check performed by `jwt.Parse` once the keyfunc returned
a key: the signature must have been produced with the header's
algorithm over exactly this payload, with matching key material. -/
def sigOk (tok : Token) (verKey : Key) : Bool :=
  decide (tok.sig.alg = tok.alg) && decide (tok.sig.payload = tok.claims)
    && keyVerifies tok.sig.key verKey

/-- The claim validation `jwt.Parse` runs by default in
`golang-jwt/jwt/v5`: `exp` (if present) must be strictly after `now`
(`verifyExpiresAt` succeeds iff `cmp.Before(exp)` with zero leeway, so
a token is already expired at its exact expiry instant), and `nbf`
(if present) must not be in the future (`verifyNotBefore` succeeds iff
`!cmp.Before(nbf)`). With no parser options — and this code base
passes none — `iss`, `aud` and `iat` are NOT checked. A malformed
temporal claim is a validation error. -/
def temporalOk (now : Int) (cs : Claims) : Bool :=
  (match claimLookup cs "exp" with
   | some (.num e) => decide (now < e)
   | some _ => false
   | none => true) &&
  (match claimLookup cs "nbf" with
   | some (.num n) => decide (n ≤ now)
   | some _ => false
   | none => true)

/-- `jwt.Parse(tokenStr, keyfunc)`: ask the keyfunc for the key (it may
reject the header's method), check the signature, then run the default
claim validation. -/
def jwtParse (now : Int) (keyfunc : Token → Except String Key) (tok : Token) :
    Except String Token :=
  match keyfunc tok with
  | .error e => .error e
  | .ok k =>
    if sigOk tok k then
      if temporalOk now tok.claims then .ok tok
      else .error "token has invalid claims"
    else .error "signature is invalid"

/-! ## Configuration (environment variables loaded by `LoadEnv`) -/

/-- The environment-derived configuration of the auth service
(`service.LoadEnv`), plus the id of the RSA key pair that
`jwtutil.LoadPrivateKey`/`LoadPublicKey` read from disk.
`jwtExpirationHour` and `refreshExpHour` are the `strconv.Atoi`
results of `JWT_EXPIRATION_HOUR` and
`JWT_REFRESH_TOKEN_EXPIRATION_HOUR` (`none` = parse error). -/
structure JwtConfig where
  jwtSecret : String
  tokenType : String
  signingMethod : String
  jwtAudience : String
  jwtIssuer : String
  jwtExpirationHour : Option Int
  refreshExpHour : Option Int
  rsaKeyId : Nat
deriving DecidableEq, Repr

/-- `service.GetJWTExpiration`: seconds-since-epoch expiry of an access
token issued at `now`. `Atoi` failure defaults to 24h; a non-positive
configured value is replaced by 24. -/
def GetJWTExpiration (expirationHour : Option Int) (now : Int) : Int :=
  match expirationHour with
  | none => now + 24 * 3600
  | some expHour =>
    let expHour' := if expHour ≤ 0 then 24 else expHour
    now + expHour' * 3600

/-- `service.GetRefreshTokenExpiration`: expiry of a refresh token
created at `now`, from its own `JWT_REFRESH_TOKEN_EXPIRATION_HOUR`
configuration, with the same default-24h rules. -/
def GetRefreshTokenExpiration (refreshExpHour : Option Int) (now : Int) : Int :=
  match refreshExpHour with
  | none => now + 24 * 3600
  | some expHour =>
    let expHour' := if expHour ≤ 0 then 24 else expHour
    now + expHour' * 3600

/-! ## Role-based access control middleware (`RoleBasedAccessControl`) -/

/-- `metacontext.UserInformationMeta`: the identity context injected by
the JWT-validation middleware. -/
structure UserInformationMeta where
  userID : Int
  username : String
  email : String
  roles : List String
deriving DecidableEq, Repr

/-- Outcome of the RBAC middleware: pass to the next handler, or abort
with the respective `httputil` response. -/
inductive RbacResult
  | next
  | internalServerError
  | forbiddenNoRoles
  | forbiddenAccessDenied
deriving DecidableEq, Repr

/-- `authorization.RoleBasedAccessControl(allowedRoles...)` applied to
a request whose context carries `meta?` (extracted identity context, or
`none` when extraction fails). -/
def RoleBasedAccessControl (allowedRoles : List String)
    (meta? : Option UserInformationMeta) : RbacResult :=
  if allowedRoles.length = 0 then .next
  else
    match meta? with
    | none => .internalServerError
    | some meta =>
      if meta.roles.length = 0 then .forbiddenNoRoles
      else if meta.roles.any (fun role => allowedRoles.any (fun allowed => decide (role = allowed)))
        then .next
      else .forbiddenAccessDenied

/-! ## Entities (`internal/entity`) -/

/-- `entity.Role` (id + name). -/
structure Role where
  id : Nat
  name : String
deriving DecidableEq, Repr

/-- `entity.User`, restricted to the fields the auth core reads. The
status flags are `*bool` columns declared `not null` in the schema, so
a stored record always has them set; they are embedded as `Bool`.
`LastLogin` is a nullable `*time.Time` and is embedded as
`Option Int`. The `password` column holds the bcrypt hash. -/
structure User where
  id : Int
  username : String
  password : String
  email : String
  isEnabled : Bool
  isAccountNonExpired : Bool
  isAccountNonLocked : Bool
  isCredentialsNonExpired : Bool
  isDeleted : Bool
  lastLogin : Option Int
  roles : List Role
deriving DecidableEq, Repr

/-- `entity.RefreshToken` (`User` association omitted — never loaded
by the auth flows). -/
structure RefreshTokenRec where
  token : String
  userID : Int
  expiryDate : Int
deriving DecidableEq, Repr

/-- `entity.LoginRequest`. -/
structure LoginRequest where
  username : String
  password : String
deriving DecidableEq, Repr

/-- `entity.RefreshTokenRequest`. -/
structure RefreshTokenRequest where
  refreshToken : String
deriving DecidableEq, Repr

/-- `entity.LoginRequest.Validate` / the identical
`RefreshTokenResponse` shape: `username` is `required,min=3,max=20`,
`password` is `required,min=8,max=20`. -/
def loginRequestValid (req : LoginRequest) : Bool :=
  decide (3 ≤ req.username.length) && decide (req.username.length ≤ 20)
    && decide (8 ≤ req.password.length) && decide (req.password.length ≤ 20)

/-- `entity.RefreshTokenRequest.Validate`: `refreshToken` is `required`. -/
def refreshTokenRequestValid (req : RefreshTokenRequest) : Bool :=
  decide (req.refreshToken ≠ "")

/-- `service.ExtractRoleNames`. -/
def ExtractRoleNames (roles : List Role) : List String :=
  roles.map (·.name)

/-! ## Abstract collaborators: bcrypt, uuid rendering, RFC3339 -/

/-- Abstract model of a bcrypt digest of `pwd` (with the salt/cost
parameters fixed): an injective tag. The stored `users.password`
column holds `bcryptHashOf` of the account's plaintext password. -/
def bcryptHashOf (pwd : String) : String :=
  "$2a$10$" ++ pwd

/-- `bcrypt.CompareHashAndPassword(hash, pwd) == nil`: the hash was
produced from this plaintext. -/
def bcryptCompareOK (hash pwd : String) : Bool :=
  decide (hash = bcryptHashOf pwd)

/-- `time.Unix(exp, 0).Format(time.RFC3339)`, abstracted to an
injective rendering of the timestamp. -/
def formatRFC3339 (t : Int) : String :=
  toString t

/-! ## Database state and repositories (`internal/repository`) -/

/-- The persistent state the auth core reads and writes: the `users`
table and the `refresh_token` table. -/
structure AppState where
  users : List User
  refreshTokens : List RefreshTokenRec
deriving DecidableEq, Repr

/-- ASCII lowercasing of one character (SQL `lower()` on the ASCII
identifiers this schema stores). -/
def lowerChar (c : Char) : Char :=
  if 'A' ≤ c ∧ c ≤ 'Z' then Char.ofNat (c.toNat + 32) else c

/-- ASCII lowercasing of a string. -/
def lowerString (s : String) : String :=
  ⟨s.data.map lowerChar⟩

/-- `userRepository.GetUserByUsername`:
`First(&user, "lower(username) = lower(?)", username)` —
case-insensitive match, first row. `none` models
`gorm.ErrRecordNotFound`. -/
def getUserByUsernameRepo (users : List User) (username : String) : Option User :=
  users.find? (fun u => decide (lowerString u.username = lowerString username))

/-- `userRepository.GetUserByID`: `First(&user, "id = ?", id)`. -/
def getUserByIDRepo (users : List User) (id : Int) : Option User :=
  users.find? (fun u => decide (u.id = id))

/-- `userRepository.UpdateUser`: `tx.Save(&user)` — replace the row
with the matching primary key. -/
def updateUserRepo (users : List User) (user : User) : List User :=
  users.map (fun v => if v.id = user.id then user else v)

/-- `refreshTokenRepository.GetRefreshTokenByUserID`:
`First(&refreshToken, "user_id = ?", userID)`. -/
def getRefreshTokenByUserIDRepo (l : List RefreshTokenRec) (userID : Int) :
    Option RefreshTokenRec :=
  l.find? (fun r => decide (r.userID = userID))

/-- `refreshTokenRepository.GetRefreshTokenByToken`:
`First(&refreshToken, "token = ?", token)`. -/
def getRefreshTokenByTokenRepo (l : List RefreshTokenRec) (token : String) :
    Option RefreshTokenRec :=
  l.find? (fun r => decide (r.token = token))

/-- `refreshTokenRepository.RemoveRefreshTokenByUserID`:
`Where("user_id = ?", userID).Delete(...)` — removes every row of the
user. -/
def removeRefreshTokenByUserIDRepo (l : List RefreshTokenRec) (userID : Int) :
    List RefreshTokenRec :=
  l.filter (fun r => !(decide (r.userID = userID)))

/-- `refreshTokenRepository.CreateRefreshToken`: `tx.Create(&token)`. -/
def createRefreshTokenRepo (l : List RefreshTokenRec) (freshRec : RefreshTokenRec) :
    List RefreshTokenRec :=
  l ++ [freshRec]

/-! ## Refresh-token service (`service.refreshTokenService`) -/

/-- `refreshTokenService.VerifyExpirationDate`: error when the stored
expiry is the zero time, `ok false` when it is strictly in the past,
`ok true` otherwise. -/
def VerifyExpirationDate (now : Int) (exp : Int) : Except String Bool :=
  if exp = 0 then .error "expiration date is not set"
  else if now > exp then .ok false
  else .ok true

/-- `refreshTokenService.CreateRefreshToken`, with the freshly drawn
`uuid.New().String()` passed in as `uuid`. Inside its own
`db.Transaction`: look up the user's existing record, delete it when
present, then insert a new record expiring at
`GetRefreshTokenExpiration`. Returns the created record and the new
table contents. (In the model the delete/insert cannot fail, so the
transaction always commits.) -/
def CreateRefreshTokenSvc (refreshExpHour : Option Int) (now : Int) (uuid : String)
    (userID : Int) (l : List RefreshTokenRec) :
    RefreshTokenRec × List RefreshTokenRec :=
  let l1 :=
    match getRefreshTokenByUserIDRepo l userID with
    | none => l
    | some _ => removeRefreshTokenByUserIDRepo l userID
  let freshRec : RefreshTokenRec :=
    ⟨uuid, userID, GetRefreshTokenExpiration refreshExpHour now⟩
  (freshRec, createRefreshTokenRepo l1 freshRec)

/-! ## Token issuance and parsing (`service` package) -/

/-- The `jwt.MapClaims` literal built identically by
`GenerateJWTTokenWithHS256` and `GenerateJWTTokenWithRS256`. -/
def makeClaims (cfg : JwtConfig) (now : Int) (user : User) : Claims :=
  [("sub", .str user.username),
   ("aud", .str cfg.jwtAudience),
   ("iss", .str cfg.jwtIssuer),
   ("iat", .num now),
   ("exp", .num (GetJWTExpiration cfg.jwtExpirationHour now)),
   ("email", .str user.email),
   ("userid", .num user.id),
   ("username", .str user.username),
   ("roles", .strList (ExtractRoleNames user.roles))]

/-- `service.GenerateJWTTokenWithHS256`: sign the claims with
`SigningMethodHS256` and the shared secret. -/
def GenerateJWTTokenWithHS256 (cfg : JwtConfig) (now : Int) (user : User) :
    Except String Token :=
  .ok (signToken .HS256 (.secret cfg.jwtSecret) (makeClaims cfg now user))

/-- `service.GenerateJWTTokenWithRS256`: sign the claims with
`SigningMethodRS256` and the private key loaded from disk. -/
def GenerateJWTTokenWithRS256 (cfg : JwtConfig) (now : Int) (user : User) :
    Except String Token :=
  .ok (signToken .RS256 (.rsaPriv cfg.rsaKeyId) (makeClaims cfg now user))

/-- `service.GenerateJWTToken`: dispatch on the configured
`JWT_ALGORITHM` string; anything other than `HS256`/`RS256` is an
unsupported signing method. -/
def GenerateJWTToken (cfg : JwtConfig) (now : Int) (user : User) :
    Except String Token :=
  if cfg.signingMethod = "HS256" then GenerateJWTTokenWithHS256 cfg now user
  else if cfg.signingMethod = "RS256" then GenerateJWTTokenWithRS256 cfg now user
  else .error ("unsupported signing method: " ++ cfg.signingMethod)

/-- `service.ParseJWTTokenWithHS256`: `jwt.Parse` with a keyfunc that
accepts any HMAC-family method (`*jwt.SigningMethodHMAC` type
assertion) and returns the shared secret; errors are wrapped. -/
def ParseJWTTokenWithHS256 (cfg : JwtConfig) (now : Int) (tok : Token) :
    Except String Token :=
  match jwtParse now
      (fun t => if t.alg.isHMAC then .ok (.secret cfg.jwtSecret)
                else .error "unexpected signing method") tok with
  | .error e => .error ("failed to parse JWT token: " ++ e)
  | .ok t => .ok t

/-- `service.ParseJWTTokenWithRS256`: `jwt.Parse` with a keyfunc that
accepts any RSA-family method and returns the public key. -/
def ParseJWTTokenWithRS256 (cfg : JwtConfig) (now : Int) (tok : Token) :
    Except String Token :=
  match jwtParse now
      (fun t => if t.alg.isRSA then .ok (.rsaPub cfg.rsaKeyId)
                else .error "unexpected signing method") tok with
  | .error e => .error ("failed to parse JWT token: " ++ e)
  | .ok t => .ok t

/-- `service.ParseJWTToken`: dispatch on the configured algorithm. -/
def ParseJWTToken (cfg : JwtConfig) (now : Int) (tok : Token) :
    Except String Token :=
  if cfg.signingMethod = "HS256" then ParseJWTTokenWithHS256 cfg now tok
  else if cfg.signingMethod = "RS256" then ParseJWTTokenWithRS256 cfg now tok
  else .error ("unsupported signing method: " ++ cfg.signingMethod)

/-- `service.GetExpirationDateFromToken`: read the `exp` claim (a
number, `float64` in Go) and render it as RFC3339. -/
def GetExpirationDateFromToken (tok : Token) : Except String String :=
  match claimLookup tok.claims "exp" with
  | some (.num e) => .ok (formatRFC3339 e)
  | _ => .error "exp claim not found or not a float64"

/-! ## JWT-validation middleware (`authorization.JwtValidation`) -/

/-- Outcome of the middleware on a bearer token that survived the
header/format checks: abort 401, crash with a Go runtime panic (an
unchecked type assertion failed), or attach the identity context and
continue. -/
inductive MwResult
  | unauthorized (msg : String)
  | crashed
  | next (meta : UserInformationMeta)
deriving DecidableEq, Repr

/-- `jwtutil.GetInt64Claim`: the claim must exist and be a JSON number
(`float64`). -/
def GetInt64Claim (cs : Claims) (key : String) : Except String Int :=
  match claimLookup cs key with
  | some (.num n) => .ok n
  | some _ => .error ("claim " ++ key ++ " is not a float64")
  | none => .error ("claim " ++ key ++ " not found")

/-- `jwtutil.GetStringSliceClaim`: a `[]interface\x7b\x7d` of strings, else
`nil`. -/
def GetStringSliceClaim (cs : Claims) (key : String) : List String :=
  match claimLookup cs key with
  | some (.strList l) => l
  | _ => []

/-- The keyfunc of `authorization.JwtValidation`'s `jwt.Parse` call:
if the token's own header says `HS256`, return the shared secret
(the HMAC type assertion always holds there); otherwise load the RSA
public key and require an RSA-family method. Note that it dispatches
on the token header, not on the configured `JWT_ALGORITHM`. -/
def mwKeyfunc (jwtSecretMw : String) (rsaPubId : Nat) (t : Token) :
    Except String Key :=
  if t.alg = .HS256 then .ok (.secret jwtSecretMw)
  else if t.alg.isRSA then .ok (.rsaPub rsaPubId)
  else .error "unexpected signing method"

/-- The middleware's `jwt.Parse(tokenStr, keyfunc)` call. -/
def mwParse (jwtSecretMw : String) (rsaPubId : Nat) (now : Int) (tok : Token) :
    Except String Token :=
  jwtParse now (mwKeyfunc jwtSecretMw rsaPubId) tok

/-- `authorization.JwtValidation`, from the point where the bearer
token string has been extracted (the `Authorization` header presence,
prefix and non-emptiness checks, lines 39–60, precede and abort with
401 without touching the token). On parse success it builds
`UserInformationMeta`: `userid` via `GetInt64Claim` with the error
ignored (zero value on failure), but `username` and `email` via bare
type assertions `claims[...].(string)`, which panic when the claim is
absent or not a string. -/
def JwtValidationCore (jwtSecretMw : String) (rsaPubId : Nat) (now : Int)
    (tok : Token) : MwResult :=
  match mwParse jwtSecretMw rsaPubId now tok with
  | .error e => .unauthorized e
  | .ok t =>
    let userID := match GetInt64Claim t.claims "userid" with
      | .ok v => v
      | .error _ => 0
    match claimLookup t.claims "username" with
    | some (.str uname) =>
      (match claimLookup t.claims "email" with
       | some (.str email) =>
         .next ⟨userID, uname, email, GetStringSliceClaim t.claims "roles"⟩
       | _ => .crashed)
    | _ => .crashed

/-! ## User service and authentication service (`service` package)

Transaction structure, faithful to the source: `authService.Login` and
`authService.RefreshToken` each open `db.Transaction(...)` on the base
connection, but every sub-operation inside the closure
(`userService.GetUserByUsername`, `refreshTokenService.CreateRefreshToken`,
`userService.UpdateLastLogin`) obtains the base connection again via
`database.GetPostgres()` and runs its *own* transaction — nothing is
executed on the outer `tx`. The outer transaction therefore rolls back
nothing: once a sub-operation has committed, a later failure in the
closure leaves its writes in place. The model reflects this by
threading the global `AppState` through the sub-operations and, on a
failing step, returning the state as committed so far. -/

/-- Result of one service operation: the Go `(value, error)` pair,
plus `crash` for a runtime panic (nil-pointer dereference). -/
inductive TxResult (α : Type)
  | ok (a : α)
  | err (msg : String)
  | crash
deriving DecidableEq, Repr

/-- `userService.UpdateLastLogin`: inside its own `db.Transaction`,
fetch the user by id (`gorm.ErrRecordNotFound` propagates as an
error), then execute `*existingUser.LastLogin = lastLogin` — a
nil-pointer dereference (panic) when the stored `LastLogin` is `nil` —
and save the row. On error or panic that transaction rolls back, so
the returned state carries no partial write of this step. -/
def UpdateLastLoginSvc (id : Int) (lastLogin : Int) (st : AppState) :
    TxResult Bool × AppState :=
  match getUserByIDRepo st.users id with
  | none => (.err "record not found", st)
  | some existingUser =>
    match existingUser.lastLogin with
    | none => (.crash, st)
    | some _ =>
      (.ok true,
       { st with users := updateUserRepo st.users { existingUser with lastLogin := some lastLogin } })

/-- `entity.LoginResponse` (the access token kept in decoded form —
string serialization is not modelled). -/
structure LoginResponse where
  accessToken : Token
  refreshToken : String
  expirationDate : String
  tokenType : String
deriving DecidableEq, Repr

/-- `authService.Login`, with the clock reading `now` and the fresh
refresh-token uuid passed explicitly. Follows the source step by step:
validate the request, look up the user case-insensitively, check the
five status flags, compare the bcrypt hash, generate and re-parse the
access token, extract its expiry, rotate the refresh token
(`CreateRefreshTokenSvc`, committed in its own transaction), then
update the last login. A failure in that final step leaves the
already-committed rotation in place (see the section comment). -/
def Login (cfg : JwtConfig) (now : Int) (uuid : String) (req : LoginRequest)
    (st : AppState) : TxResult LoginResponse × AppState :=
  if !loginRequestValid req then (.err "validation failed", st)
  else
    match getUserByUsernameRepo st.users req.username with
    | none => (.err "record not found", st)
    | some existingUser =>
      if !existingUser.isEnabled then
        (.err ("user with username " ++ req.username ++ " is not enabled"), st)
      else if !existingUser.isAccountNonExpired then
        (.err "user account is expired", st)
      else if !existingUser.isAccountNonLocked then
        (.err "user account is locked", st)
      else if !existingUser.isCredentialsNonExpired then
        (.err "user credentials are expired", st)
      else if existingUser.isDeleted then
        (.err ("user with username " ++ req.username ++ " is deleted"), st)
      else if !bcryptCompareOK existingUser.password req.password then
        (.err ("invalid credentials for user " ++ req.username), st)
      else
        match GenerateJWTToken cfg now existingUser with
        | .error e => (.err ("failed to generate JWT token: " ++ e), st)
        | .ok tokenStr =>
          match ParseJWTToken cfg now tokenStr with
          | .error e => (.err ("failed to parse JWT token: " ++ e), st)
          | .ok jwtToken =>
            match GetExpirationDateFromToken jwtToken with
            | .error e => (.err ("failed to get expiration date from token: " ++ e), st)
            | .ok expirationDateStr =>
              let created :=
                CreateRefreshTokenSvc cfg.refreshExpHour now uuid existingUser.id
                  st.refreshTokens
              let st1 : AppState := { st with refreshTokens := created.2 }
              match UpdateLastLoginSvc existingUser.id now st1 with
              | (.err e, st2) => (.err ("failed to update last login time: " ++ e), st2)
              | (.crash, st2) => (.crash, st2)
              | (.ok _, st2) =>
                (.ok ⟨tokenStr, created.1.token, expirationDateStr, cfg.tokenType⟩, st2)

/-- `entity.RefreshTokenResponse`. -/
structure RefreshTokenResponse where
  accessToken : Token
  refreshToken : String
  expirationDate : String
  tokenType : String
deriving DecidableEq, Repr

/-- `authService.RefreshToken`: validate the request, look up the
stored record by token string, check its expiry with
`VerifyExpirationDate` (the error result is discarded — `ok, _ :=` —
so both a zero expiry and a past expiry yield `ok = false` and the
flow returns "refresh token is expired"), resolve the owning user,
then reissue exactly as in `Login`. -/
def RefreshTokenOp (cfg : JwtConfig) (now : Int) (uuid : String)
    (req : RefreshTokenRequest) (st : AppState) :
    TxResult RefreshTokenResponse × AppState :=
  if !refreshTokenRequestValid req then (.err "validation failed", st)
  else
    match getRefreshTokenByTokenRepo st.refreshTokens req.refreshToken with
    | none => (.err "record not found", st)
    | some existingRefreshToken =>
      let expOk := match VerifyExpirationDate now existingRefreshToken.expiryDate with
        | .ok b => b
        | .error _ => false
      if !expOk then (.err "refresh token is expired", st)
      else
        match getUserByIDRepo st.users existingRefreshToken.userID with
        | none => (.err "record not found", st)
        | some userDetails =>
          match GenerateJWTToken cfg now userDetails with
          | .error e => (.err ("failed to generate JWT token: " ++ e), st)
          | .ok accessTokenStr =>
            match ParseJWTToken cfg now accessTokenStr with
            | .error e => (.err ("failed to parse JWT token: " ++ e), st)
            | .ok jwtToken =>
              match GetExpirationDateFromToken jwtToken with
              | .error e => (.err ("failed to get expiration date from token: " ++ e), st)
              | .ok expirationDateStr =>
                let created :=
                  CreateRefreshTokenSvc cfg.refreshExpHour now uuid userDetails.id
                    st.refreshTokens
                let st1 : AppState := { st with refreshTokens := created.2 }
                match UpdateLastLoginSvc userDetails.id now st1 with
                | (.err e, st2) => (.err ("failed to update last login time: " ++ e), st2)
                | (.crash, st2) => (.crash, st2)
                | (.ok _, st2) =>
                  (.ok ⟨accessTokenStr, created.1.token, expirationDateStr, cfg.tokenType⟩, st2)

/-! ## Concrete fixtures for witnesses and counterexamples -/

/-- An HS256 deployment configuration. -/
def cfgHS : JwtConfig :=
  ⟨"s3cr3t", "Bearer", "HS256", "aud1", "iss1", some 48, some 720, 0⟩

/-- An RS256 deployment configuration (same shared secret still in the
environment, key pair id 0 on disk). -/
def cfgRS : JwtConfig :=
  ⟨"s3cr3t", "Bearer", "RS256", "aud1", "iss1", some 48, some 720, 0⟩

/-- The seeded `admin` account (all status flags healthy, a recorded
last login). -/
def adminUser : User :=
  ⟨1, "admin", bcryptHashOf "P@ssw0rd", "admin@mygmail.com",
   true, true, true, true, false, some 10, [⟨3, "ROLE_ADMIN"⟩]⟩

/-- A healthy account that has never logged in (`LastLogin` is `nil`). -/
def freshUser : User :=
  ⟨2, "userone", bcryptHashOf "P@ssw0rd", "userone@mygmail.com",
   true, true, true, true, false, none, [⟨1, "ROLE_USER"⟩]⟩

/-- A token signed with the deployment's own HS256 secret whose `iss`
and `aud` claims name a different deployment. -/
def foreignIssToken : Token :=
  signToken .HS256 (.secret "s3cr3t")
    [("sub", .str "admin"), ("aud", .str "other-deployment"),
     ("iss", .str "other-deployment"), ("iat", .num 100), ("exp", .num 200000),
     ("email", .str "admin@mygmail.com"), ("userid", .num 1),
     ("username", .str "admin"), ("roles", .strList ["ROLE_ADMIN"])]

/-- A well-formed access token signed with `HS256` and the shared
secret (correct issuer/audience for this deployment). -/
def hs256SignedToken : Token :=
  signToken .HS256 (.secret "s3cr3t")
    [("sub", .str "admin"), ("aud", .str "aud1"), ("iss", .str "iss1"),
     ("iat", .num 100), ("exp", .num 200000),
     ("email", .str "admin@mygmail.com"), ("userid", .num 1),
     ("username", .str "admin"), ("roles", .strList ["ROLE_ADMIN"])]

/-- A token signed with the deployment secret whose claims carry no
`username` entry. -/
def noUsernameToken : Token :=
  signToken .HS256 (.secret "s3cr3t")
    [("sub", .str "ghost"), ("aud", .str "aud1"), ("iss", .str "iss1"),
     ("iat", .num 100), ("exp", .num 200000),
     ("email", .str "ghost@mygmail.com"), ("userid", .num 7),
     ("roles", .strList ["ROLE_USER"])]

/-- A token signed with the deployment secret whose `username` claim
is a number, not a string. -/
def numUsernameToken : Token :=
  signToken .HS256 (.secret "s3cr3t")
    [("sub", .str "ghost"), ("aud", .str "aud1"), ("iss", .str "iss1"),
     ("iat", .num 100), ("exp", .num 200000),
     ("email", .str "ghost@mygmail.com"), ("userid", .num 7),
     ("username", .num 5), ("roles", .strList ["ROLE_USER"])]

/-- A store holding one refresh-token record for `admin` whose expiry
(500) is in the past relative to the test clock (1000). -/
def expiredStore : AppState :=
  ⟨[adminUser], [⟨"expired-token-1", 1, 500⟩]⟩

/-- A store with the never-logged-in user and an existing refresh
token for them. -/
def preRotationStore : AppState :=
  ⟨[freshUser], [⟨"old-refresh", 2, 999999⟩]⟩

/-- The number of live refresh-token records a store holds for one
user (the measure of the single-session invariant). -/
def countFor (l : List RefreshTokenRec) (userID : Int) : Nat :=
  l.countP (fun r => decide (r.userID = userID))

/-! ## C7 — role-based access controller -/

/-- C7: the RBAC middleware allows unconditionally on an empty
allow-list; with a non-empty allow-list it fails with an internal
error when no identity context is attached, fails Forbidden on an
empty role set, allows exactly when the role set intersects the
allow-list under case-sensitive exact string match, and otherwise
fails Forbidden; in particular `{ROLE_ADMIN}` denies `{ROLE_USER}` and
allows `{ROLE_ADMIN, ROLE_USER}`. -/
theorem c7_rbac_characterization :
    (∀ meta?, RoleBasedAccessControl [] meta? = .next) ∧
    (∀ allowedRoles, allowedRoles ≠ [] →
      RoleBasedAccessControl allowedRoles none = .internalServerError) ∧
    (∀ allowedRoles meta, allowedRoles ≠ [] → meta.roles = [] →
      RoleBasedAccessControl allowedRoles (some meta) = .forbiddenNoRoles) ∧
    (∀ allowedRoles meta, allowedRoles ≠ [] → meta.roles ≠ [] →
      (RoleBasedAccessControl allowedRoles (some meta) = .next ↔
        ∃ r, r ∈ meta.roles ∧ r ∈ allowedRoles)) ∧
    (∀ allowedRoles meta, allowedRoles ≠ [] → meta.roles ≠ [] →
      (¬ ∃ r, r ∈ meta.roles ∧ r ∈ allowedRoles) →
      RoleBasedAccessControl allowedRoles (some meta) = .forbiddenAccessDenied) ∧
    RoleBasedAccessControl ["ROLE_ADMIN"]
      (some ⟨2, "userone", "userone@mygmail.com", ["ROLE_USER"]⟩) =
      .forbiddenAccessDenied ∧
    RoleBasedAccessControl ["ROLE_ADMIN"]
      (some ⟨1, "admin", "admin@mygmail.com", ["ROLE_ADMIN", "ROLE_USER"]⟩) =
      .next := by
  refine ⟨?_, ?_, ?_, ?_, ?_, by decide, by decide⟩
  · intro meta?
    simp [RoleBasedAccessControl]
  · intro allowedRoles h1
    simp [RoleBasedAccessControl, List.length_eq_zero, h1]
  · intro allowedRoles meta h1 h2
    simp [RoleBasedAccessControl, List.length_eq_zero, h1, h2]
  · intro allowedRoles meta h1 h2
    simp only [RoleBasedAccessControl, List.length_eq_zero, h1, h2, if_false]
    by_cases hany :
        meta.roles.any (fun role => allowedRoles.any fun allowed => decide (role = allowed)) = true
    · rw [if_pos hany]
      simp only [List.any_eq_true, decide_eq_true_eq] at hany
      obtain ⟨r, hr, a, ha, rfl⟩ := hany
      simp only [true_iff]
      exact ⟨r, hr, ha⟩
    · rw [if_neg hany]
      simp only [List.any_eq_true, decide_eq_true_eq, not_exists, not_and] at hany
      constructor
      · intro h
        cases h
      · rintro ⟨r, hr, hra⟩
        exact absurd rfl (hany r hr r hra)
  · intro allowedRoles meta h1 h2 hno
    simp only [RoleBasedAccessControl, List.length_eq_zero, h1, h2, if_false]
    rw [if_neg]
    intro hany
    simp only [List.any_eq_true, decide_eq_true_eq] at hany
    obtain ⟨r, hr, a, ha, rfl⟩ := hany
    exact hno ⟨r, hr, ha⟩

/-- Witness for C7 at concrete inputs: an allow-list `[ROLE_ADMIN]`
with no identity context fails with the internal error, and an
identity holding `ROLE_USER` satisfies the intersection criterion for
allow-list `[ROLE_USER, ROLE_MODERATOR]`. -/
theorem c7_rbac_characterization_witness :
    RoleBasedAccessControl ["ROLE_ADMIN"] none = .internalServerError ∧
    (RoleBasedAccessControl ["ROLE_USER", "ROLE_MODERATOR"]
      (some ⟨2, "userone", "userone@mygmail.com", ["ROLE_USER"]⟩) = .next ↔
      ∃ r, r ∈ ["ROLE_USER"] ∧ r ∈ ["ROLE_USER", "ROLE_MODERATOR"]) :=
  ⟨c7_rbac_characterization.2.1 ["ROLE_ADMIN"] (by decide),
   c7_rbac_characterization.2.2.2.1 ["ROLE_USER", "ROLE_MODERATOR"]
     ⟨2, "userone", "userone@mygmail.com", ["ROLE_USER"]⟩ (by decide) (by decide)⟩

/-! ## C8 — token TTLs -/

/-- C8: the access-token expiry is `now + TTL` hours with a 24-hour
default when the configuration is unparseable or non-positive; the
`exp` claim of every issued token equals `GetJWTExpiration`; and the
refresh-token expiry is computed the same way from its own independent
configuration with the same defaults. -/
theorem c8_ttl_computation :
    (∀ now : Int, GetJWTExpiration none now = now + 24 * 3600) ∧
    (∀ (now h : Int), h ≤ 0 → GetJWTExpiration (some h) now = now + 24 * 3600) ∧
    (∀ (now h : Int), 0 < h → GetJWTExpiration (some h) now = now + h * 3600) ∧
    (∀ cfg now user, claimLookup (makeClaims cfg now user) "exp" =
      some (.num (GetJWTExpiration cfg.jwtExpirationHour now))) ∧
    (∀ e now uuid uid l,
      (CreateRefreshTokenSvc e now uuid uid l).1.expiryDate =
        GetRefreshTokenExpiration e now) ∧
    (∀ now : Int, GetRefreshTokenExpiration none now = now + 24 * 3600) ∧
    (∀ (now h : Int), h ≤ 0 → GetRefreshTokenExpiration (some h) now = now + 24 * 3600) ∧
    (∀ (now h : Int), 0 < h → GetRefreshTokenExpiration (some h) now = now + h * 3600) := by
  refine ⟨fun now => rfl, ?_, ?_, fun cfg now user => rfl, fun e now uuid uid l => rfl,
    fun now => rfl, ?_, ?_⟩
  · intro now h hh
    simp [GetJWTExpiration, if_pos hh]
  · intro now h hh
    simp [GetJWTExpiration, if_neg (not_le.mpr hh)]
  · intro now h hh
    simp [GetRefreshTokenExpiration, if_pos hh]
  · intro now h hh
    simp [GetRefreshTokenExpiration, if_neg (not_le.mpr hh)]

/-- Witness for C8 at concrete inputs: an unparseable TTL and a
negative TTL default to 24 hours, a 48-hour TTL lands 48 hours out. -/
theorem c8_ttl_computation_witness :
    GetJWTExpiration none 1000 = 1000 + 24 * 3600 ∧
    GetJWTExpiration (some (-3)) 1000 = 1000 + 24 * 3600 ∧
    GetJWTExpiration (some 48) 1000 = 1000 + 48 * 3600 ∧
    GetRefreshTokenExpiration (some 720) 1000 = 1000 + 720 * 3600 :=
  ⟨c8_ttl_computation.1 1000,
   c8_ttl_computation.2.1 1000 (-3) (by decide),
   c8_ttl_computation.2.2.1 1000 48 (by decide),
   c8_ttl_computation.2.2.2.2.2.2.2 1000 720 (by decide)⟩

/-! ## Shared parsing lemmas -/

/-- The signature of an honestly signed token checks out under a key
exactly when the key material matches. -/
theorem sigOk_signToken (alg : Alg) (key : Key) (cs : Claims) (k : Key) :
    sigOk (signToken alg key cs) k = keyVerifies key k := by
  simp [sigOk, signToken]

/-- `jwtParse` succeeds when the keyfunc yields a key, the signature
checks out and the temporal claims validate. -/
theorem jwtParse_ok (now : Int) (kf : Token → Except String Key) (tok : Token)
    (k : Key) (hk : kf tok = .ok k) (hsig : sigOk tok k = true)
    (ht : temporalOk now tok.claims = true) :
    jwtParse now kf tok = .ok tok := by
  simp [jwtParse, hk, hsig, ht]

/-! ## C2 — issuer/audience are not checked at verification -/

/-- C2 counterexample: a token whose issuer and audience both differ
from the configured strings (`iss1`/`aud1`) nevertheless passes
`ParseJWTToken` verbatim and is authenticated by the validation
middleware — verification does not reject it. -/
theorem c2_foreign_iss_aud_accepted_counterexample :
    claimLookup foreignIssToken.claims "iss" = some (.str "other-deployment") ∧
    claimLookup foreignIssToken.claims "aud" = some (.str "other-deployment") ∧
    cfgHS.jwtIssuer = "iss1" ∧
    cfgHS.jwtAudience = "aud1" ∧
    ParseJWTToken cfgHS 1000 foreignIssToken = .ok foreignIssToken ∧
    JwtValidationCore cfgHS.jwtSecret cfgHS.rsaKeyId 1000 foreignIssToken =
      .next ⟨1, "admin", "admin@mygmail.com", ["ROLE_ADMIN"]⟩ :=
  ⟨rfl, rfl, rfl, rfl, rfl, rfl⟩

/-- C2 amended: the issuer and audience strings are embedded in every
issued token but never consulted at verification (`jwt.Parse` is
called without `WithIssuer`/`WithAudience` options): under an HS256
configuration, any token signed with the configured secret whose
temporal claims validate passes both the service-side parse and the
middleware's parse, whatever its `iss` and `aud` claims say. -/
theorem c2_amended_iss_aud_unchecked :
    ∀ (cfg : JwtConfig) (rsaPubId : Nat) (now : Int) (cs : Claims),
      cfg.signingMethod = "HS256" →
      temporalOk now cs = true →
      ParseJWTToken cfg now (signToken .HS256 (.secret cfg.jwtSecret) cs) =
        .ok (signToken .HS256 (.secret cfg.jwtSecret) cs) ∧
      (mwParse cfg.jwtSecret rsaPubId now
        (signToken .HS256 (.secret cfg.jwtSecret) cs)).isOk = true := by
  intro cfg rsaPubId now cs halg ht
  have hsig : sigOk (signToken .HS256 (.secret cfg.jwtSecret) cs) (.secret cfg.jwtSecret) = true := by
    simp [sigOk_signToken, keyVerifies]
  constructor
  · simp only [ParseJWTToken, halg, if_pos, ParseJWTTokenWithHS256]
    rw [jwtParse_ok now _ _ (.secret cfg.jwtSecret) rfl hsig ht]
  · rw [mwParse, jwtParse_ok now _ _ (.secret cfg.jwtSecret) rfl hsig ht]
    rfl

/-- Witness for C2's amended theorem: the foreign-issuer token above
parses under the concrete HS256 deployment. -/
theorem c2_amended_iss_aud_unchecked_witness :
    ParseJWTToken cfgHS 1000
        (signToken .HS256 (.secret cfgHS.jwtSecret) foreignIssToken.claims) =
      .ok (signToken .HS256 (.secret cfgHS.jwtSecret) foreignIssToken.claims) ∧
    (mwParse cfgHS.jwtSecret 0 1000
      (signToken .HS256 (.secret cfgHS.jwtSecret) foreignIssToken.claims)).isOk = true :=
  c2_amended_iss_aud_unchecked cfgHS 0 1000 foreignIssToken.claims rfl (by decide)

/-! ## C3 — algorithm confusion -/

/-- C3 counterexample: under a deployment configured for `RS256`, a
token signed with algorithm `HS256` is indeed rejected by the
service-side `ParseJWTToken` — but the request-authentication
middleware, which selects key material by the token's *own* header
algorithm, verifies it and authenticates the request. The claimed
property does not hold for both paths. -/
theorem c3_mw_accepts_mismatched_alg_counterexample :
    cfgRS.signingMethod = "RS256" ∧
    hs256SignedToken.alg = .HS256 ∧
    ParseJWTToken cfgRS 1000 hs256SignedToken =
      .error "failed to parse JWT token: unexpected signing method" ∧
    JwtValidationCore cfgRS.jwtSecret cfgRS.rsaKeyId 1000 hs256SignedToken =
      .next ⟨1, "admin", "admin@mygmail.com", ["ROLE_ADMIN"]⟩ :=
  ⟨rfl, rfl, rfl, rfl⟩

/-- C3 amended: the service-side `ParseJWTToken` fails closed with an
unexpected-signing-method error exactly at algorithm-*family*
granularity — an HS256 configuration rejects every non-HMAC token and
an RS256 configuration rejects every non-RSA token, but an HS256
configuration accepts a token signed with any HMAC-family algorithm
(e.g. HS384) under the shared secret. The `JwtValidation` middleware
does not consult the configured algorithm at all: it dispatches on the
token's own header, accepting an HS256 token under the shared secret
regardless of configuration. -/
theorem c3_amended_family_granularity :
    (∀ (cfg : JwtConfig) (now : Int) (tok : Token),
      cfg.signingMethod = "HS256" → tok.alg.isHMAC = false →
      ParseJWTToken cfg now tok =
        .error "failed to parse JWT token: unexpected signing method") ∧
    (∀ (cfg : JwtConfig) (now : Int) (tok : Token),
      cfg.signingMethod = "RS256" → tok.alg.isRSA = false →
      ParseJWTToken cfg now tok =
        .error "failed to parse JWT token: unexpected signing method") ∧
    (∀ (cfg : JwtConfig) (now : Int) (cs : Claims),
      cfg.signingMethod = "HS256" → temporalOk now cs = true →
      ParseJWTToken cfg now (signToken .HS384 (.secret cfg.jwtSecret) cs) =
        .ok (signToken .HS384 (.secret cfg.jwtSecret) cs)) ∧
    (∀ (s : String) (pid : Nat) (now : Int) (cs : Claims),
      temporalOk now cs = true →
      (mwParse s pid now (signToken .HS256 (.secret s) cs)).isOk = true) := by
  refine ⟨?_, ?_, ?_, ?_⟩
  · intro cfg now tok halg hfam
    simp [ParseJWTToken, halg, ParseJWTTokenWithHS256, jwtParse, hfam]
  · intro cfg now tok halg hfam
    simp [ParseJWTToken, halg, ParseJWTTokenWithRS256, jwtParse, hfam]
  · intro cfg now cs halg ht
    simp only [ParseJWTToken, halg, if_pos, ParseJWTTokenWithHS256]
    rw [jwtParse_ok now _ _ (.secret cfg.jwtSecret) rfl
      (by simp [sigOk_signToken, keyVerifies]) ht]
  · intro s pid now cs ht
    rw [mwParse, jwtParse_ok now _ _ (.secret s) rfl
      (by simp [sigOk_signToken, keyVerifies]) ht]
    rfl

/-- Witness for C3's amended theorem at concrete inputs: the RS256
deployment rejects the HS256-signed token in `ParseJWTToken`, an
HS384-signed token passes under the HS256 configuration, and the
middleware accepts the HS256-signed token. -/
theorem c3_amended_family_granularity_witness :
    ParseJWTToken cfgRS 1000 hs256SignedToken =
      .error "failed to parse JWT token: unexpected signing method" ∧
    ParseJWTToken cfgHS 1000
        (signToken .HS384 (.secret cfgHS.jwtSecret) hs256SignedToken.claims) =
      .ok (signToken .HS384 (.secret cfgHS.jwtSecret) hs256SignedToken.claims) ∧
    (mwParse "s3cr3t" 0 1000 hs256SignedToken).isOk = true :=
  ⟨c3_amended_family_granularity.2.1 cfgRS 1000 hs256SignedToken rfl (by decide),
   c3_amended_family_granularity.2.2.1 cfgHS 1000 hs256SignedToken.claims rfl (by decide),
   c3_amended_family_granularity.2.2.2 "s3cr3t" 0 1000 hs256SignedToken.claims (by decide)⟩

/-! ## C9 — unchecked type assertions in the middleware -/

/-- C9: there exist tokens that pass the middleware's signature
verification but whose `username` claim is absent (or not a string);
on them the identity-context construction's unchecked type assertion
`claims["username"].(string)` panics instead of answering 401 — the
middleware is not total. -/
theorem c9_mw_type_assertion_crash :
    (mwParse "s3cr3t" 0 1000 noUsernameToken).isOk = true ∧
    claimLookup noUsernameToken.claims "username" = none ∧
    JwtValidationCore "s3cr3t" 0 1000 noUsernameToken = .crashed ∧
    (mwParse "s3cr3t" 0 1000 numUsernameToken).isOk = true ∧
    JwtValidationCore "s3cr3t" 0 1000 numUsernameToken = .crashed := by
  decide

/-! ## C1 — expired refresh tokens are rejected -/

/-- C1 counterexample: for a stored refresh-token record whose expiry
is in the past, the RefreshToken operation does **not** proceed to
reissue — it returns the error "refresh token is expired" and leaves
the store untouched (no new token pair is produced). -/
theorem c1_expired_refresh_reissued_counterexample :
    getRefreshTokenByTokenRepo expiredStore.refreshTokens "expired-token-1" =
      some ⟨"expired-token-1", 1, 500⟩ ∧
    ((1000 : Int) > 500) ∧
    RefreshTokenOp cfgHS 1000 "uuid-fresh" ⟨"expired-token-1"⟩ expiredStore =
      (.err "refresh token is expired", expiredStore) :=
  ⟨rfl, by decide, rfl⟩

/-- C1 amended: the negative result of the expiry check
short-circuits the flow — for every refresh request whose stored
record has a non-zero expiry date in the past, `RefreshToken` stops
with the error "refresh token is expired" before issuing anything,
and the state is unchanged. -/
theorem c1_expired_refresh_rejected :
    ∀ (cfg : JwtConfig) (now : Int) (uuid : String) (req : RefreshTokenRequest)
      (st : AppState) (r : RefreshTokenRec),
      refreshTokenRequestValid req = true →
      getRefreshTokenByTokenRepo st.refreshTokens req.refreshToken = some r →
      r.expiryDate ≠ 0 →
      now > r.expiryDate →
      RefreshTokenOp cfg now uuid req st = (.err "refresh token is expired", st) := by
  intro cfg now uuid req st r hvalid hfind hz hgt
  simp [RefreshTokenOp, hvalid, hfind, VerifyExpirationDate, hz, hgt]

/-- Witness for C1's amended theorem at the concrete expired store. -/
theorem c1_expired_refresh_rejected_witness :
    RefreshTokenOp cfgRS 1000 "uuid-other" ⟨"expired-token-1"⟩ expiredStore =
      (.err "refresh token is expired", expiredStore) :=
  c1_expired_refresh_rejected cfgRS 1000 "uuid-other" ⟨"expired-token-1"⟩
    expiredStore ⟨"expired-token-1", 1, 500⟩ (by decide) rfl (by decide) (by decide)

/-! ## C10 — Login panics on a never-logged-in user -/

/-- C10: a stored user whose `LastLogin` is `nil` is a reachable Login
input (healthy flags, correct password) on which the last-login update
step dereferences a nil pointer: `Login` crashes instead of returning
an error. -/
theorem c10_login_crash_on_nil_last_login :
    freshUser.lastLogin = none ∧
    bcryptCompareOK freshUser.password "P@ssw0rd" = true ∧
    (Login cfgHS 1000 "uuid-1" ⟨"userone", "P@ssw0rd"⟩ ⟨[freshUser], []⟩).1 =
      .crash :=
  ⟨rfl, by decide, rfl⟩

/-! ## C5 — Login is not one atomic unit of work -/

/-- C5 counterexample: when the last-login step fails (nil `LastLogin`
dereference) *after* the refresh-token rotation, the rotation survives:
Login does not return success, yet the user's refresh-token record has
been replaced (the old record is gone, the new uuid is stored). The
sub-operations commit in their own transactions, so the failed Login
leaves partial state. -/
theorem c5_partial_state_counterexample :
    (Login cfgHS 1000 "uuid-new" ⟨"userone", "P@ssw0rd"⟩ preRotationStore).1 =
      .crash ∧
    (Login cfgHS 1000 "uuid-new" ⟨"userone", "P@ssw0rd"⟩ preRotationStore).2.refreshTokens =
      [⟨"uuid-new", 2, GetRefreshTokenExpiration (some 720) 1000⟩] ∧
    (Login cfgHS 1000 "uuid-new" ⟨"userone", "P@ssw0rd"⟩ preRotationStore).2.refreshTokens ≠
      preRotationStore.refreshTokens :=
  ⟨rfl, rfl, by decide⟩

/-- C5 amended: failures *before* token issuance do unwind cleanly —
in particular, for every state and request, when the submitted
password does not match the stored bcrypt hash, Login returns the
invalid-credentials error and the state is exactly unchanged (no
refresh-token record created or altered, no last-login update). The
original atomicity claim fails only for failures after the
refresh-token rotation, which commits in its own transaction (see the
counterexample). -/
theorem c5_amended_wrong_password_unwinds :
    ∀ (cfg : JwtConfig) (now : Int) (uuid : String) (req : LoginRequest)
      (st : AppState) (u : User),
      loginRequestValid req = true →
      getUserByUsernameRepo st.users req.username = some u →
      u.isEnabled = true →
      u.isAccountNonExpired = true →
      u.isAccountNonLocked = true →
      u.isCredentialsNonExpired = true →
      u.isDeleted = false →
      bcryptCompareOK u.password req.password = false →
      Login cfg now uuid req st =
        (.err ("invalid credentials for user " ++ req.username), st) := by
  intro cfg now uuid req st u hvalid hfind hen hae hal hce hdel hpw
  simp [Login, hvalid, hfind, hen, hae, hal, hce, hdel, hpw]

/-- Witness for C5's amended theorem: a wrong password against the
seeded `admin` account leaves the store byte-for-byte unchanged. -/
theorem c5_amended_wrong_password_unwinds_witness :
    Login cfgHS 1000 "uuid-x" ⟨"admin", "WrongPass1"⟩ ⟨[adminUser], []⟩ =
      (.err ("invalid credentials for user " ++ "admin"), ⟨[adminUser], []⟩) :=
  c5_amended_wrong_password_unwinds cfgHS 1000 "uuid-x" ⟨"admin", "WrongPass1"⟩
    ⟨[adminUser], []⟩ adminUser (by decide) rfl rfl rfl rfl rfl rfl (by decide)

/-! ## Issuance/verification helper lemmas -/

/-- An access token's expiry lies strictly after its issuance instant
(the effective TTL is at least one hour). -/
theorem now_lt_GetJWTExpiration (e : Option Int) (now : Int) :
    now < GetJWTExpiration e now := by
  cases e with
  | none =>
    show now < now + 24 * 3600
    omega
  | some h =>
    show now < now + (if h ≤ 0 then 24 else h) * 3600
    split <;> omega

/-- The claims built at issuance validate temporally at any instant
strictly before their expiry (they carry no `nbf`). -/
theorem temporalOk_makeClaims (cfg : JwtConfig) (user : User) (now vt : Int)
    (h : vt < GetJWTExpiration cfg.jwtExpirationHour now) :
    temporalOk vt (makeClaims cfg now user) = true := by
  have hexp : claimLookup (makeClaims cfg now user) "exp" =
      some (.num (GetJWTExpiration cfg.jwtExpirationHour now)) := rfl
  have hnbf : claimLookup (makeClaims cfg now user) "nbf" = none := rfl
  simp [temporalOk, hexp, hnbf, h]

/-- Under an HS256 configuration, a token honestly signed with `HS256`
and the configured secret parses back verbatim whenever its temporal
claims validate. -/
theorem parse_hs256_signed (cfg : JwtConfig) (vt : Int) (cs : Claims)
    (halg : cfg.signingMethod = "HS256") (ht : temporalOk vt cs = true) :
    ParseJWTToken cfg vt (signToken .HS256 (.secret cfg.jwtSecret) cs) =
      .ok (signToken .HS256 (.secret cfg.jwtSecret) cs) := by
  simp only [ParseJWTToken, halg, if_pos, ParseJWTTokenWithHS256]
  rw [jwtParse_ok vt _ _ (.secret cfg.jwtSecret) rfl
    (by simp [sigOk_signToken, keyVerifies]) ht]

/-- Under an RS256 configuration, a token honestly signed with `RS256`
and the configured private key parses back verbatim (against the
matching public key) whenever its temporal claims validate. -/
theorem parse_rs256_signed (cfg : JwtConfig) (vt : Int) (cs : Claims)
    (halg : cfg.signingMethod = "RS256") (ht : temporalOk vt cs = true) :
    ParseJWTToken cfg vt (signToken .RS256 (.rsaPriv cfg.rsaKeyId) cs) =
      .ok (signToken .RS256 (.rsaPriv cfg.rsaKeyId) cs) := by
  simp only [ParseJWTToken, halg, ParseJWTTokenWithRS256, if_true]
  rw [jwtParse_ok vt _ _ (.rsaPub cfg.rsaKeyId) rfl
    (by simp [sigOk_signToken, keyVerifies]) ht]
  simp

/-! ## C6 — sign/verify round trip -/

/-- C6: for every user and issuance instant, signing then verifying at
any instant within the TTL window (strictly before the `exp` claim, as
`golang-jwt/v5` rejects a token at its exact expiry instant) succeeds
and returns the very same claims, under either supported algorithm
(HS256 or RS256) with its matching key material. -/
theorem c6_sign_verify_round_trip :
    ∀ (cfg : JwtConfig) (user : User) (now verifyTime : Int),
      (cfg.signingMethod = "HS256" ∨ cfg.signingMethod = "RS256") →
      verifyTime < GetJWTExpiration cfg.jwtExpirationHour now →
      ∃ tok : Token,
        GenerateJWTToken cfg now user = .ok tok ∧
        ParseJWTToken cfg verifyTime tok = .ok tok ∧
        tok.claims = makeClaims cfg now user := by
  intro cfg user now vt halg hvt
  have ht := temporalOk_makeClaims cfg user now vt hvt
  rcases halg with halg | halg
  · refine ⟨signToken .HS256 (.secret cfg.jwtSecret) (makeClaims cfg now user),
      ?_, parse_hs256_signed cfg vt (makeClaims cfg now user) halg ht, rfl⟩
    simp [GenerateJWTToken, halg, GenerateJWTTokenWithHS256]
  · refine ⟨signToken .RS256 (.rsaPriv cfg.rsaKeyId) (makeClaims cfg now user),
      ?_, parse_rs256_signed cfg vt (makeClaims cfg now user) halg ht, rfl⟩
    simp [GenerateJWTToken, halg, GenerateJWTTokenWithRS256]

/-- Witness for C6 at concrete inputs: the HS256 deployment and the
RS256 deployment each round-trip the admin user's claims when
verification happens at the issuance instant. -/
theorem c6_sign_verify_round_trip_witness :
    (∃ tok : Token,
      GenerateJWTToken cfgHS 1000 adminUser = .ok tok ∧
      ParseJWTToken cfgHS 1000 tok = .ok tok ∧
      tok.claims = makeClaims cfgHS 1000 adminUser) ∧
    (∃ tok : Token,
      GenerateJWTToken cfgRS 1000 adminUser = .ok tok ∧
      ParseJWTToken cfgRS 1000 tok = .ok tok ∧
      tok.claims = makeClaims cfgRS 1000 adminUser) :=
  ⟨c6_sign_verify_round_trip cfgHS adminUser 1000 1000 (Or.inl rfl) (by decide),
   c6_sign_verify_round_trip cfgRS adminUser 1000 1000 (Or.inr rfl) (by decide)⟩

/-! ## Refresh-token store lemmas -/

/-- Deleting a user's records leaves zero records for that user. -/
theorem countFor_remove_zero (l : List RefreshTokenRec) (uid : Int) :
    countFor (removeRefreshTokenByUserIDRepo l uid) uid = 0 := by
  rw [countFor, List.countP_eq_zero]
  intro a ha
  have h2 := (List.mem_filter.mp ha).2
  simpa using h2

/-- When the lookup finds no record for a user, the store holds zero
records for that user. -/
theorem countFor_find_none_zero (l : List RefreshTokenRec) (uid : Int)
    (h : getRefreshTokenByUserIDRepo l uid = none) : countFor l uid = 0 := by
  rw [getRefreshTokenByUserIDRepo] at h
  rw [countFor, List.countP_eq_zero]
  intro a ha
  have h2 := List.find?_eq_none.mp h a ha
  simpa using h2

/-- `CreateRefreshToken` leaves exactly one record for the target
user, whatever the store held before. -/
theorem countFor_create_self (e : Option Int) (now : Int) (uuid : String) (uid : Int)
    (l : List RefreshTokenRec) :
    countFor (CreateRefreshTokenSvc e now uuid uid l).2 uid = 1 := by
  have happ : (CreateRefreshTokenSvc e now uuid uid l).2 =
      (match getRefreshTokenByUserIDRepo l uid with
        | none => l
        | some _ => removeRefreshTokenByUserIDRepo l uid) ++
      [⟨uuid, uid, GetRefreshTokenExpiration e now⟩] := rfl
  rw [happ]
  cases hf : getRefreshTokenByUserIDRepo l uid with
  | none =>
    have h0 := countFor_find_none_zero l uid hf
    rw [countFor] at h0 ⊢
    rw [List.countP_append, h0]
    simp [List.countP_cons]
  | some r =>
    have h0 := countFor_remove_zero l uid
    rw [countFor] at h0 ⊢
    rw [List.countP_append, h0]
    simp [List.countP_cons]

/-- `CreateRefreshToken` for one user does not change how many records
any other user has. -/
theorem countFor_create_other (e : Option Int) (now : Int) (uuid : String)
    (uid uid' : Int) (l : List RefreshTokenRec) (hne : uid' ≠ uid) :
    countFor (CreateRefreshTokenSvc e now uuid uid l).2 uid' = countFor l uid' := by
  have huid : uid ≠ uid' := fun h => hne h.symm
  have happ : (CreateRefreshTokenSvc e now uuid uid l).2 =
      (match getRefreshTokenByUserIDRepo l uid with
        | none => l
        | some _ => removeRefreshTokenByUserIDRepo l uid) ++
      [⟨uuid, uid, GetRefreshTokenExpiration e now⟩] := rfl
  rw [happ]
  cases hf : getRefreshTokenByUserIDRepo l uid with
  | none =>
    rw [countFor, countFor, List.countP_append]
    simp [List.countP_cons, huid]
  | some r =>
    rw [countFor, countFor, removeRefreshTokenByUserIDRepo, List.countP_append,
      List.countP_filter]
    have hcong : ∀ a ∈ l,
        ((decide (a.userID = uid') && !decide (a.userID = uid)) = true ↔
          decide (a.userID = uid') = true) := by
      intro a _
      by_cases hpa : a.userID = uid'
      · simp [hpa, hne]
      · simp [hpa]
    rw [List.countP_congr hcong]
    simp [List.countP_cons, huid]

/-- `find?` skips a prefix in which nothing matches. -/
theorem find_none_append {α : Type} (p : α → Bool) (l1 l2 : List α)
    (h : l1.find? p = none) : (l1 ++ l2).find? p = l2.find? p := by
  induction l1 with
  | nil => rfl
  | cons a t ih =>
    cases hpa : p a with
    | true =>
      rw [List.find?_cons_of_pos _ hpa] at h
      cases h
    | false =>
      rw [List.find?_cons_of_neg _ (by simp [hpa])] at h
      rw [List.cons_append, List.find?_cons_of_neg _ (by simp [hpa])]
      exact ih h

/-- After `CreateRefreshToken`, looking the user up returns exactly
the freshly inserted record. -/
theorem getRefreshTokenByUserIDRepo_create (e : Option Int) (now : Int)
    (uuid : String) (uid : Int) (l : List RefreshTokenRec) :
    getRefreshTokenByUserIDRepo (CreateRefreshTokenSvc e now uuid uid l).2 uid =
      some ⟨uuid, uid, GetRefreshTokenExpiration e now⟩ := by
  have happ : (CreateRefreshTokenSvc e now uuid uid l).2 =
      (match getRefreshTokenByUserIDRepo l uid with
        | none => l
        | some _ => removeRefreshTokenByUserIDRepo l uid) ++
      [⟨uuid, uid, GetRefreshTokenExpiration e now⟩] := rfl
  rw [getRefreshTokenByUserIDRepo, happ]
  have hone : List.find? (fun r => decide (r.userID = uid))
      [(⟨uuid, uid, GetRefreshTokenExpiration e now⟩ : RefreshTokenRec)] =
      some ⟨uuid, uid, GetRefreshTokenExpiration e now⟩ :=
    List.find?_cons_of_pos _ (by simp)
  cases hf : getRefreshTokenByUserIDRepo l uid with
  | none =>
    rw [getRefreshTokenByUserIDRepo] at hf
    rw [find_none_append _ _ _ hf]
    exact hone
  | some r =>
    rw [find_none_append, hone]
    rw [List.find?_eq_none]
    intro a ha
    have h2 := (List.mem_filter.mp ha).2
    simpa using h2

/-! ## Login evaluation lemma -/

/-- Full evaluation of a successful `Login` over a single-user store:
with a valid request, a matching (case-insensitive) username, healthy
status flags, the correct password, a recorded previous login and an
HS256 configuration, `Login` succeeds, returning the freshly signed
access token, the fresh refresh-token uuid and the rendered expiry;
the resulting state has the last login updated and the refresh-token
table rotated by `CreateRefreshTokenSvc`. -/
theorem login_hs256_success_eval (cfg : JwtConfig) (now : Int) (uuid : String)
    (req : LoginRequest) (u : User) (l : List RefreshTokenRec) (t0 : Int)
    (hvalid : loginRequestValid req = true)
    (hname : lowerString u.username = lowerString req.username)
    (hen : u.isEnabled = true)
    (hae : u.isAccountNonExpired = true)
    (hal : u.isAccountNonLocked = true)
    (hce : u.isCredentialsNonExpired = true)
    (hdel : u.isDeleted = false)
    (hpw : u.password = bcryptHashOf req.password)
    (hll : u.lastLogin = some t0)
    (halg : cfg.signingMethod = "HS256") :
    Login cfg now uuid req ⟨[u], l⟩ =
      (.ok ⟨signToken .HS256 (.secret cfg.jwtSecret) (makeClaims cfg now u),
            uuid,
            formatRFC3339 (GetJWTExpiration cfg.jwtExpirationHour now),
            cfg.tokenType⟩,
       ⟨[{u with lastLogin := some now}],
        (CreateRefreshTokenSvc cfg.refreshExpHour now uuid u.id l).2⟩) := by
  have hfind : getUserByUsernameRepo [u] req.username = some u := by
    rw [getUserByUsernameRepo, List.find?_cons_of_pos _ (by simp [hname])]
  have hgen : GenerateJWTToken cfg now u =
      .ok (signToken .HS256 (.secret cfg.jwtSecret) (makeClaims cfg now u)) := by
    simp [GenerateJWTToken, halg, GenerateJWTTokenWithHS256]
  have hparse := parse_hs256_signed cfg now (makeClaims cfg now u) halg
    (temporalOk_makeClaims cfg u now now (now_lt_GetJWTExpiration _ _))
  have hexpd : GetExpirationDateFromToken
      (signToken .HS256 (.secret cfg.jwtSecret) (makeClaims cfg now u)) =
      .ok (formatRFC3339 (GetJWTExpiration cfg.jwtExpirationHour now)) := rfl
  have hid : getUserByIDRepo [u] u.id = some u := by
    rw [getUserByIDRepo, List.find?_cons_of_pos _ (by simp)]
  have hupd : UpdateLastLoginSvc u.id now
      ⟨[u], (CreateRefreshTokenSvc cfg.refreshExpHour now uuid u.id l).2⟩ =
      (.ok true,
       ⟨[{u with lastLogin := some now}],
        (CreateRefreshTokenSvc cfg.refreshExpHour now uuid u.id l).2⟩) := by
    simp [UpdateLastLoginSvc, hid, hll, updateUserRepo]
  simp [Login, hvalid, hfind, hen, hae, hal, hce, hdel, bcryptCompareOK, hpw,
    hgen, hparse, hexpd, hupd]
  rfl

/-! ## C4 — single live refresh token per user, rotation on login -/

/-- C4: `CreateRefreshToken` deletes any existing record for the user
before inserting, so after it the user has exactly one live record
while every other user's records are untouched; consequently, after
two consecutive successful `Login` calls for a user (over a
single-user store with an arbitrary initial refresh-token table and
distinct random uuids), exactly one record exists for that user, that
record carries the second call's uuid, and it is not the token issued
by the first call. -/
theorem c4_single_live_refresh_token :
    (∀ (e : Option Int) (now : Int) (uuid : String) (uid : Int)
       (l : List RefreshTokenRec),
      countFor (CreateRefreshTokenSvc e now uuid uid l).2 uid = 1) ∧
    (∀ (e : Option Int) (now : Int) (uuid : String) (uid uid' : Int)
       (l : List RefreshTokenRec),
      uid' ≠ uid →
      countFor (CreateRefreshTokenSvc e now uuid uid l).2 uid' = countFor l uid') ∧
    (∀ (cfg : JwtConfig) (now1 now2 : Int) (uuid1 uuid2 : String)
       (req : LoginRequest) (u : User) (l : List RefreshTokenRec) (t0 : Int),
      uuid1 ≠ uuid2 →
      loginRequestValid req = true →
      lowerString u.username = lowerString req.username →
      u.isEnabled = true →
      u.isAccountNonExpired = true →
      u.isAccountNonLocked = true →
      u.isCredentialsNonExpired = true →
      u.isDeleted = false →
      u.password = bcryptHashOf req.password →
      u.lastLogin = some t0 →
      cfg.signingMethod = "HS256" →
      ∃ (r1 r2 : LoginResponse) (st1 st2 : AppState),
        Login cfg now1 uuid1 req ⟨[u], l⟩ = (.ok r1, st1) ∧
        Login cfg now2 uuid2 req st1 = (.ok r2, st2) ∧
        countFor st2.refreshTokens u.id = 1 ∧
        getRefreshTokenByUserIDRepo st2.refreshTokens u.id =
          some ⟨uuid2, u.id, GetRefreshTokenExpiration cfg.refreshExpHour now2⟩ ∧
        r1.refreshToken = uuid1 ∧
        r2.refreshToken = uuid2 ∧
        r2.refreshToken ≠ r1.refreshToken) := by
  refine ⟨countFor_create_self, countFor_create_other, ?_⟩
  intro cfg now1 now2 uuid1 uuid2 req u l t0 huuid hvalid hname hen hae hal hce hdel
    hpw hll halg
  have h1 := login_hs256_success_eval cfg now1 uuid1 req u l t0 hvalid hname hen hae
    hal hce hdel hpw hll halg
  have h2 := login_hs256_success_eval cfg now2 uuid2 req { u with lastLogin := some now1 }
    (CreateRefreshTokenSvc cfg.refreshExpHour now1 uuid1 u.id l).2 now1 hvalid hname
    hen hae hal hce hdel hpw rfl halg
  refine ⟨_, _, _, _, h1, h2, ?_, ?_, rfl, rfl, Ne.symm huuid⟩
  · exact countFor_create_self cfg.refreshExpHour now2 uuid2 u.id _
  · exact getRefreshTokenByUserIDRepo_create cfg.refreshExpHour now2 uuid2 u.id _

/-- Witness for C4 at concrete inputs: rotating over a store that held
a stale record for `admin` and one record for another user, and the
two-login scenario for the seeded `admin` account. -/
theorem c4_single_live_refresh_token_witness :
    countFor (CreateRefreshTokenSvc (some 720) 1000 "uuid-w" 1
      [⟨"stale-token", 1, 42⟩, ⟨"other-token", 9, 99⟩]).2 1 = 1 ∧
    countFor (CreateRefreshTokenSvc (some 720) 1000 "uuid-w" 1
      [⟨"stale-token", 1, 42⟩, ⟨"other-token", 9, 99⟩]).2 9 =
      countFor [⟨"stale-token", 1, 42⟩, ⟨"other-token", 9, 99⟩] 9 ∧
    (∃ (r1 r2 : LoginResponse) (st1 st2 : AppState),
      Login cfgHS 1000 "uuid-a" ⟨"admin", "P@ssw0rd"⟩
          ⟨[adminUser], [⟨"stale-token", 1, 42⟩]⟩ = (.ok r1, st1) ∧
      Login cfgHS 2000 "uuid-b" ⟨"admin", "P@ssw0rd"⟩ st1 = (.ok r2, st2) ∧
      countFor st2.refreshTokens adminUser.id = 1 ∧
      getRefreshTokenByUserIDRepo st2.refreshTokens adminUser.id =
        some ⟨"uuid-b", adminUser.id, GetRefreshTokenExpiration cfgHS.refreshExpHour 2000⟩ ∧
      r1.refreshToken = "uuid-a" ∧
      r2.refreshToken = "uuid-b" ∧
      r2.refreshToken ≠ r1.refreshToken) :=
  ⟨c4_single_live_refresh_token.1 (some 720) 1000 "uuid-w" 1
      [⟨"stale-token", 1, 42⟩, ⟨"other-token", 9, 99⟩],
   c4_single_live_refresh_token.2.1 (some 720) 1000 "uuid-w" 1 9
      [⟨"stale-token", 1, 42⟩, ⟨"other-token", 9, 99⟩] (by decide),
   c4_single_live_refresh_token.2.2 cfgHS 1000 2000 "uuid-a" "uuid-b"
      ⟨"admin", "P@ssw0rd"⟩ adminUser [⟨"stale-token", 1, 42⟩] 10 (by decide)
      (by decide) rfl rfl rfl rfl rfl rfl rfl rfl rfl⟩

end JwtAuthDemo
